import Mathlib

/-!
Verification of the IMDB conversational-agent repository.

Strings are embedded as `List Char`. Python `str.replace`, `str.strip`,
regex digit extraction, `pd.to_numeric(errors="coerce")` and the tool
control flow of `toolbox.py`, `datastore_setup.py` and `app.py` are
modelled as executable Lean functions; external effects (the LLM call,
the SQLite engine, the sentence-transformer embedding and the FAISS
index search) are passed in as explicit function parameters so that each
tool is a pure function of its inputs and those oracles.
-/

/-- Python whitespace predicate used by `str.strip`. -/
def isPySpace (c : Char) : Bool :=
  c = ' ' || c = '\t' || c = '\n' || c = '\r' || c = '\x0b' || c = '\x0c'

/-- Python `s.strip()`: drop leading and trailing whitespace. -/
def pyStrip (s : List Char) : List Char :=
  ((s.dropWhile isPySpace).reverse.dropWhile isPySpace).reverse

/-- The backtick character of the markdown code fences. -/
def backtickChar : Char := String.front "`"

/-- Model of `query.replace("`", "")` from `clean_sql_query` (toolbox.py line 18):
every backtick character is removed. -/
def removeBackticks (s : List Char) : List Char :=
  s.filter (fun c => c ≠ backtickChar)

/-- Model of `query.replace("sql", "")` from `clean_sql_query` (toolbox.py line 18):
Python `str.replace` scans left to right once, removing each
non-overlapping occurrence of the pattern `"sql"`. -/
def removeSqlToken : List Char → List Char
  | 's' :: 'q' :: 'l' :: rest => removeSqlToken rest
  | c :: rest => c :: removeSqlToken rest
  | [] => []

/-- Model of `clean_sql_query` (toolbox.py lines 16-20).  The `none` input models
Python `None`; `Except.error` models the raised `ValueError`.  Note the
length check is performed on the raw input, before sanitization. -/
def clean_sql_query : Option (List Char) → Except (List Char) (List Char)
  | some q =>
      if 0 < q.length then
        Except.ok (pyStrip (removeSqlToken (removeBackticks q)))
      else Except.error "Malformed SQL Query".data
  | none => Except.error "Malformed SQL Query".data

/-- Spec-side phrasing of fence-marker stripping: remove each backtick,
written as a direct recursion rather than a filter. -/
def stripFenceMarkers : List Char → List Char
  | [] => []
  | c :: cs => if c = backtickChar then stripFenceMarkers cs else c :: stripFenceMarkers cs

theorem stripFenceMarkers_eq_removeBackticks (s : List Char) :
    stripFenceMarkers s = removeBackticks s := by
  induction s with
  | nil => rfl
  | cons c cs ih =>
      by_cases h : c = backtickChar <;>
        simp [stripFenceMarkers, removeBackticks, h, List.filter] at ih ⊢ <;>
        simpa [removeBackticks] using ih

/-- A database row as returned by `cursor.fetchall()` zipped with the
column names: an association list from column name to cell text. -/
def DBRow : Type := List (List Char × List Char)

/-- Outcome of `cursor.execute` + `fetchall` on one query string, as the
tool observes it: a row list, a `sqlite3.OperationalError` with a message,
or any other exception (e.g. the `ProgrammingError` raised on an empty
statement). -/
inductive ExecOutcome : Type
  | rows (rs : List DBRow)
  | operationalError (msg : List Char)
  | otherError (msg : List Char)

/-- What `adaptive_structured_query_tool` does once control leaves it:
a JSON row array, the `{"message": "No results found."}` object, the
`{"error": ..., "query": ...}` object, or an exception propagating to the
caller. -/
inductive ToolOutcome : Type
  | json_rows (rs : List DBRow)
  | json_no_results
  | json_error (err q : List Char)
  | raised (msg : List Char)

/-- The body after `clean_sql_query` succeeds (toolbox.py lines 77-90):
execute, fetch, branch on emptiness; `sqlite3.OperationalError` is the
only caught exception and is converted to the error JSON carrying the
executed query text. -/
def dispatchExec (q : List Char) : ExecOutcome → ToolOutcome
  | ExecOutcome.rows rs => if rs.length = 0 then ToolOutcome.json_no_results else ToolOutcome.json_rows rs
  | ExecOutcome.operationalError m => ToolOutcome.json_error m q
  | ExecOutcome.otherError m => ToolOutcome.raised m

/-- Model of `adaptive_structured_query_tool` (toolbox.py lines 50-90), as a
function of the LLM-generated SQL text `gen` and the SQLite execution
oracle `exec`.  A `ValueError` from `clean_sql_query` is not caught by
the `except sqlite3.OperationalError` clause, so it propagates. -/
def adaptive_structured_query_tool
    (gen : List Char) (dbexec : List Char → ExecOutcome) : ToolOutcome :=
  match clean_sql_query (some gen) with
  | Except.error m => ToolOutcome.raised m
  | Except.ok q => dispatchExec q (dbexec q)

/-- Model of `user_query.lower()`: ASCII lowering as performed by Python on the
queries involved. -/
def toLowerStr (s : List Char) : List Char := s.map Char.toLower

/-- Decidable substring test (`keyword in lower_q` on Python strings). -/
def containsSub (pat s : List Char) : Bool :=
  match s with
  | [] => pat.isEmpty
  | _ :: rest => pat.isPrefixOf s || containsSub pat rest

/-- The `SYNONYMS` table of `expand_semantic_query` (toolbox.py lines
96-100), in Python dict insertion order. -/
def SYNONYMS : List (List Char × List (List Char)) :=
  [("death".data, ["dying".data, "murder".data, "dead".data, "kill".data, "fatal".data]),
   ("dream".data, ["dreams".data, "subconscious".data, "sleep".data]),
   ("robot".data, ["android".data, "AI".data, "machine".data, "cyborg".data])]

/-- The synonym lists of every trigger keyword occurring in the lowered
query, concatenated in table order (the `expansions` list). -/
def triggerExpansions (user_query : List Char) : List (List Char) :=
  (SYNONYMS.filter (fun kv => containsSub kv.1 (toLowerStr user_query))).flatMap (fun kv => kv.2)

/-- Model of `expand_semantic_query` (toolbox.py lines 94-113): if any trigger
keyword is a substring of the lowered query, append the " OR "-joined
synonym list in parentheses; otherwise return the query unchanged. -/
def expand_semantic_query (user_query : List Char) : List Char :=
  let expansions := triggerExpansions user_query
  if expansions.isEmpty then user_query
  else user_query ++ " (".data ++ List.intercalate " OR ".data expansions ++ ")".data

/-- Model of `[id_to_title_map[idx] for idx in indices[0] if idx in id_to_title_map]`
(toolbox.py lines 153-162): the map assigns 1-based ordinal positions to
the distinct titles, so index `i` survives iff `1 ≤ i ≤ titles.length`,
and then maps to the title at ordinal `i`. -/
def matchTitles (titles : List (List Char)) (indices : List Int) : List (List Char) :=
  indices.filterMap (fun i =>
    if 1 ≤ i then titles.get? (i.toNat - 1) else none)

/-- Observable effect of one embedding-plus-FAISS search round. -/
inductive SemEvent : Type
  | searched (q : List Char)

/-- Model of `adaptive_semantic_search_tool` (toolbox.py lines 116-171) as a
function of the distinct title list read from SQLite and of the
composite embed-then-FAISS-search oracle `search` (returning
`indices[0]`).  The result pairs the matched-title list (serialized by
`json.dumps` in the source) with the trace of search rounds performed. -/
def adaptive_semantic_search_tool
    (titles : List (List Char)) (search : List Char → List Int)
    (search_query : List Char) : List (List Char) × List SemEvent :=
  if titles.isEmpty then ([], [])
  else
    let matched := matchTitles titles (search search_query)
    if matched.isEmpty then
      let expanded := expand_semantic_query search_query
      (matchTitles titles (search expanded),
       [SemEvent.searched search_query, SemEvent.searched expanded])
    else (matched, [SemEvent.searched search_query])

/-- ASCII digit test (the regex class `\d` on this dataset). -/
def isAsciiDigit (c : Char) : Bool := '0' ≤ c ∧ c ≤ '9'

/-- Model of `df["Runtime"].str.extract(r"(\d+)")` (datastore_setup.py line 32):
the first maximal run of digits, or `none` when the cell has no digit. -/
def extractDigits : List Char → Option (List Char)
  | [] => none
  | c :: rest =>
      if isAsciiDigit c then some ((c :: rest).takeWhile isAsciiDigit)
      else extractDigits rest

/-- Model of `df["Gross"].str.replace(",", "", regex=True)` (datastore_setup.py
line 34). -/
def removeCommas (s : List Char) : List Char := s.filter (fun c => c ≠ ',')

/-- Digit string to number. -/
def digitsToNat (s : List Char) : Nat :=
  s.foldl (fun n c => 10 * n + (c.toNat - '0'.toNat)) 0

/-- Unsigned decimal literal: digits with an optional fractional part. -/
def parseUnsigned (s : List Char) : Option ℚ :=
  let intPart := s.takeWhile isAsciiDigit
  let rest := s.dropWhile isAsciiDigit
  if intPart.isEmpty then none
  else
    match rest with
    | [] => some (digitsToNat intPart : ℚ)
    | '.' :: frac =>
        if !frac.isEmpty && frac.all isAsciiDigit then
          some ((digitsToNat intPart : ℚ) + (digitsToNat frac : ℚ) / (10 ^ frac.length))
        else none
    | _ => none

/-- Model of `pd.to_numeric(·, errors="coerce")` on one cell (datastore_setup.py
line 38), restricted to plain signed decimal literals; any other text
coerces to NaN (`none`). -/
def to_numeric : List Char → Option ℚ
  | '-' :: rest => (parseUnsigned rest).map (fun q => -q)
  | s => parseUnsigned s

/-- Python `int()` cast applied by `astype(int)`: truncation toward 0. -/
def truncQ (q : ℚ) : Int := if 0 ≤ q then ⌊q⌋ else ⌈q⌉

/-- One float column cell after `to_numeric(...).fillna(-999).astype(float)`:
a missing cell or unparseable text becomes the sentinel -999. -/
def floatCell (c : Option (List Char)) : ℚ :=
  ((c.bind to_numeric).getD (-999))

/-- One integer column cell after `to_numeric(...).fillna(-999).astype(int)`. -/
def intCell (c : Option (List Char)) : Int :=
  truncQ ((c.bind to_numeric).getD (-999))

/-- Model of `fillna("Not Available")` on one non-numeric cell
(datastore_setup.py line 28). -/
def fillNotAvailable (c : Option (List Char)) : List Char :=
  c.getD "Not Available".data

/-- One CSV row as read by `pd.read_csv`: each cell is either text or
missing (NaN). -/
structure RawMovieRow : Type where
  Poster_Link : Option (List Char)
  Series_Title : Option (List Char)
  Released_Year : Option (List Char)
  Certificate : Option (List Char)
  Runtime : Option (List Char)
  Genre : Option (List Char)
  IMDB_Rating : Option (List Char)
  Overview : Option (List Char)
  Meta_score : Option (List Char)
  Director : Option (List Char)
  Star1 : Option (List Char)
  Star2 : Option (List Char)
  Star3 : Option (List Char)
  Star4 : Option (List Char)
  No_of_Votes : Option (List Char)
  Gross : Option (List Char)

/-- One stored record after `get_structured_dataset`: every field holds
exactly one value, real or sentinel — the record type has no optional
field. -/
structure MovieRecord : Type where
  Poster_Link : List Char
  Series_Title : List Char
  Released_Year : Int
  Certificate : List Char
  Runtime : Int
  Genre : List Char
  IMDB_Rating : ℚ
  Overview : List Char
  Meta_score : ℚ
  Director : List Char
  Star1 : List Char
  Star2 : List Char
  Star3 : List Char
  Star4 : List Char
  No_of_Votes : Int
  Gross : ℚ

/-- Model of `get_structured_dataset` (datastore_setup.py lines 10-44) on one row:
non-numeric cells are filled with "Not Available"; `Runtime` keeps its
first digit run, `Gross` loses its commas; the three float columns and
the three integer columns go through `to_numeric(errors="coerce")`,
`fillna(-999)` and the `astype` cast. -/
def get_structured_dataset (r : RawMovieRow) : MovieRecord where
  Poster_Link := fillNotAvailable r.Poster_Link
  Series_Title := fillNotAvailable r.Series_Title
  Released_Year := intCell r.Released_Year
  Certificate := fillNotAvailable r.Certificate
  Runtime := intCell (r.Runtime.bind extractDigits)
  Genre := fillNotAvailable r.Genre
  IMDB_Rating := floatCell r.IMDB_Rating
  Overview := fillNotAvailable r.Overview
  Meta_score := floatCell r.Meta_score
  Director := fillNotAvailable r.Director
  Star1 := fillNotAvailable r.Star1
  Star2 := fillNotAvailable r.Star2
  Star3 := fillNotAvailable r.Star3
  Star4 := fillNotAvailable r.Star4
  No_of_Votes := intCell r.No_of_Votes
  Gross := floatCell (r.Gross.map removeCommas)

/-- FAISS index build of `setup_databases` (datastore_setup.py lines
136-146): the `Overview` column with missing cells filled by a single
space (`fillna(" ")`), written to `semantic_search_data` and embedded
row by row; `index.add` keeps insertion order, so the vector list is
the index contents in position order. -/
def buildFaissVectors {α : Type} (embed : List Char → α)
    (overviews : List (Option (List Char))) : List α :=
  (overviews.map (fun o => o.getD " ".data)).map embed

/-- The final reasoning-panel text of one assistant turn (app.py lines
188-193): the newline-join of the recorded step traces when more than
one step was recorded, else the literal placeholder. -/
def cotDisplay (response_tracker : List (List Char)) : List Char :=
  if 1 < response_tracker.length then
    List.intercalate "\n".data response_tracker
  else "Nothing to Display.".data

/-- Claim C1 (as stated, refuted): an empty generated query makes
`clean_sql_query` raise `ValueError`, which the tool does not catch, so
an exception reaches the caller instead of a JSON error object; and the
generated text "sql" sanitizes to the empty string yet passes the
length check, so the empty statement is handed to the database and the
resulting non-operational exception also propagates. -/
theorem structured_tool_malformed_query_counterexample :
    adaptive_structured_query_tool [] (fun _ => ExecOutcome.rows [])
      = ToolOutcome.raised "Malformed SQL Query".data
    ∧ clean_sql_query (some "sql".data) = Except.ok []
    ∧ adaptive_structured_query_tool "sql".data
        (fun _ => ExecOutcome.otherError "You can only execute one statement at a time.".data)
      = ToolOutcome.raised "You can only execute one statement at a time.".data :=
  ⟨rfl, rfl, rfl⟩

/-- Claim C1 (amended): the tool raises on an empty generated query (the
`ValueError` is not converted to JSON); every non-empty generated query
— even one whose sanitized form is empty — is executed, and exactly the
`sqlite3.OperationalError` outcomes are converted to a JSON error object
carrying the offending (sanitized) query text. -/
theorem structured_tool_error_contract
    (gen : List Char) (dbexec : List Char → ExecOutcome) :
    (gen = [] →
      adaptive_structured_query_tool gen dbexec
        = ToolOutcome.raised "Malformed SQL Query".data)
    ∧ (∀ q, clean_sql_query (some gen) = Except.ok q →
        adaptive_structured_query_tool gen dbexec = dispatchExec q (dbexec q)
        ∧ ∀ m, dbexec q = ExecOutcome.operationalError m →
            adaptive_structured_query_tool gen dbexec = ToolOutcome.json_error m q) := by
  constructor
  · intro h
    subst h
    rfl
  · intro q hq
    constructor
    · simp [adaptive_structured_query_tool, hq]
    · intro m hm
      simp [adaptive_structured_query_tool, hq, dispatchExec, hm]

/-- Witness for C1 (amended) at a concrete generated query and a
concrete operational error. -/
theorem structured_tool_error_contract_witness :
    adaptive_structured_query_tool "SELECT 1".data
        (fun _ => ExecOutcome.operationalError "no such table: films".data)
      = ToolOutcome.json_error "no such table: films".data "SELECT 1".data := by
  have h := (structured_tool_error_contract "SELECT 1".data
      (fun _ => ExecOutcome.operationalError "no such table: films".data)).2
    "SELECT 1".data rfl
  exact h.2 "no such table: films".data rfl

/-- Claim C4 (confirmed): on any non-empty input, `clean_sql_query`
returns the input with every backtick removed, then every occurrence of
the token "sql" removed in one left-to-right pass, then surrounding
whitespace stripped; consequently the legitimate query text
"SELECT * FROM sqlite_master" is corrupted to "SELECT * FROM ite_master". -/
theorem clean_sql_query_sanitizes :
    (∀ q : List Char, 0 < q.length →
        clean_sql_query (some q)
          = Except.ok (pyStrip (removeSqlToken (stripFenceMarkers q))))
    ∧ clean_sql_query (some "SELECT * FROM sqlite_master".data)
        = Except.ok "SELECT * FROM ite_master".data := by
  constructor
  · intro q h
    simp [clean_sql_query, h, stripFenceMarkers_eq_removeBackticks]
  · rfl

/-- Witness for C4 at a concrete fenced query. -/
theorem clean_sql_query_sanitizes_witness :
    clean_sql_query (some "``` SELECT Gross FROM movies ```".data)
      = Except.ok (pyStrip (removeSqlToken
          (stripFenceMarkers "``` SELECT Gross FROM movies ```".data))) :=
  clean_sql_query_sanitizes.1 "``` SELECT Gross FROM movies ```".data (by decide)

/-- Claim C7 (confirmed): whenever the tool returns a value, that value
is one of the three JSON shapes: the row array exactly when execution
yielded at least one row, the fixed no-results object on zero rows, and
the error-plus-query object on an operational error. -/
theorem structured_tool_output_shapes (gen q : List Char)
    (dbexec : List Char → ExecOutcome)
    (hq : clean_sql_query (some gen) = Except.ok q) :
    (∀ rs, dbexec q = ExecOutcome.rows rs →
        adaptive_structured_query_tool gen dbexec
          = if rs.length = 0 then ToolOutcome.json_no_results
            else ToolOutcome.json_rows rs)
    ∧ (∀ m, dbexec q = ExecOutcome.operationalError m →
        adaptive_structured_query_tool gen dbexec = ToolOutcome.json_error m q)
    ∧ (∀ rs, adaptive_structured_query_tool gen dbexec = ToolOutcome.json_rows rs →
        0 < rs.length) := by
  refine ⟨fun rs h => ?_, fun m h => ?_, fun rs h => ?_⟩
  · simp [adaptive_structured_query_tool, hq, dispatchExec, h]
  · simp [adaptive_structured_query_tool, hq, dispatchExec, h]
  · simp only [adaptive_structured_query_tool, hq] at h
    cases hdb : dbexec q with
    | rows rs2 =>
        rw [hdb] at h
        by_cases hl : rs2.length = 0
        · simp [dispatchExec, hl] at h
        · simp [dispatchExec, hl] at h
          subst h
          omega
    | operationalError m =>
        rw [hdb] at h
        simp [dispatchExec] at h
    | otherError m =>
        rw [hdb] at h
        simp [dispatchExec] at h

/-- Witness for C7 at a concrete query and a one-row result. -/
theorem structured_tool_output_shapes_witness :
    adaptive_structured_query_tool "SELECT 1".data
        (fun _ => ExecOutcome.rows [[("Series_Title".data, "Inception".data)]])
      = ToolOutcome.json_rows [[("Series_Title".data, "Inception".data)]] := by
  have h := (structured_tool_output_shapes "SELECT 1".data "SELECT 1".data
      (fun _ => ExecOutcome.rows [[("Series_Title".data, "Inception".data)]]) rfl).1
    [[("Series_Title".data, "Inception".data)]] rfl
  simpa using h

theorem intCell_none : intCell none = -999 := by decide

theorem floatCell_none : floatCell none = -999 := rfl

/-- Claim C2 (confirmed): for any source row, a missing cell in each of
the six numeric columns is stored as the sentinel -999, and a missing
cell in each of the ten non-numeric columns is stored as the literal
"Not Available"; the `MovieRecord` type itself has exactly one
(non-optional) value per field. -/
theorem etl_missing_value_sentinels (r : RawMovieRow) :
    (r.IMDB_Rating = none → (get_structured_dataset r).IMDB_Rating = -999)
    ∧ (r.Meta_score = none → (get_structured_dataset r).Meta_score = -999)
    ∧ (r.Gross = none → (get_structured_dataset r).Gross = -999)
    ∧ (r.Runtime = none → (get_structured_dataset r).Runtime = -999)
    ∧ (r.No_of_Votes = none → (get_structured_dataset r).No_of_Votes = -999)
    ∧ (r.Released_Year = none → (get_structured_dataset r).Released_Year = -999)
    ∧ (r.Poster_Link = none → (get_structured_dataset r).Poster_Link = "Not Available".data)
    ∧ (r.Series_Title = none → (get_structured_dataset r).Series_Title = "Not Available".data)
    ∧ (r.Certificate = none → (get_structured_dataset r).Certificate = "Not Available".data)
    ∧ (r.Genre = none → (get_structured_dataset r).Genre = "Not Available".data)
    ∧ (r.Overview = none → (get_structured_dataset r).Overview = "Not Available".data)
    ∧ (r.Director = none → (get_structured_dataset r).Director = "Not Available".data)
    ∧ (r.Star1 = none → (get_structured_dataset r).Star1 = "Not Available".data)
    ∧ (r.Star2 = none → (get_structured_dataset r).Star2 = "Not Available".data)
    ∧ (r.Star3 = none → (get_structured_dataset r).Star3 = "Not Available".data)
    ∧ (r.Star4 = none → (get_structured_dataset r).Star4 = "Not Available".data) := by
  refine ⟨fun h => ?_, fun h => ?_, fun h => ?_, fun h => ?_, fun h => ?_, fun h => ?_,
    fun h => ?_, fun h => ?_, fun h => ?_, fun h => ?_, fun h => ?_, fun h => ?_,
    fun h => ?_, fun h => ?_, fun h => ?_, fun h => ?_⟩ <;>
  simp [get_structured_dataset, h, intCell_none, floatCell_none, fillNotAvailable]

/-- A row whose every cell is missing. -/
def rowAllMissing : RawMovieRow where
  Poster_Link := none
  Series_Title := none
  Released_Year := none
  Certificate := none
  Runtime := none
  Genre := none
  IMDB_Rating := none
  Overview := none
  Meta_score := none
  Director := none
  Star1 := none
  Star2 := none
  Star3 := none
  Star4 := none
  No_of_Votes := none
  Gross := none

/-- Witness for C2 at the all-missing row. -/
theorem etl_missing_value_sentinels_witness :
    (get_structured_dataset rowAllMissing).Runtime = -999
    ∧ (get_structured_dataset rowAllMissing).Gross = -999
    ∧ (get_structured_dataset rowAllMissing).Series_Title = "Not Available".data := by
  obtain ⟨h1, h2, h3, h4, h5, h6, h7, h8, h9, h10, h11, h12, h13, h14, h15, h16⟩ :=
    etl_missing_value_sentinels rowAllMissing
  exact ⟨h4 rfl, h3 rfl, h8 rfl⟩

/-- The CSV row of the concrete scenario of C8. -/
def inceptionRow : RawMovieRow where
  Poster_Link := none
  Series_Title := some "Inception".data
  Released_Year := some "2010".data
  Certificate := some "UA".data
  Runtime := some "148 min".data
  Genre := some "Action, Adventure, Sci-Fi".data
  IMDB_Rating := some "8.8".data
  Overview := some "A thief who steals corporate secrets.".data
  Meta_score := some "74".data
  Director := some "Christopher Nolan".data
  Star1 := some "Leonardo DiCaprio".data
  Star2 := some "Joseph Gordon-Levitt".data
  Star3 := some "Elliot Page".data
  Star4 := some "Ken Watanabe".data
  No_of_Votes := some "2067042".data
  Gross := some "292,576,195".data

/-- Claim C8 (confirmed): the Inception row with Runtime "148 min" and
Gross "292,576,195" is stored with the integer 148 (the leading digit
run) and the number 292576195 (commas removed before conversion). -/
theorem etl_inception_row_normalization :
    (get_structured_dataset inceptionRow).Series_Title = "Inception".data
    ∧ (get_structured_dataset inceptionRow).Runtime = 148
    ∧ (get_structured_dataset inceptionRow).Gross = 292576195 := by
  refine ⟨rfl, by decide, by decide⟩

/-- Model of `any(keyword in lower_q for keyword in SYNONYMS)`: the query
contains at least one trigger word. -/
def hasTriggerWord (q : List Char) : Bool :=
  SYNONYMS.any (fun kv => containsSub kv.1 (toLowerStr q))

theorem triggerExpansions_eq_nil (q : List Char) (h : hasTriggerWord q = false) :
    triggerExpansions q = [] := by
  simp only [hasTriggerWord, List.any_eq_false] at h
  unfold triggerExpansions
  rw [List.filter_eq_nil_iff.mpr h]
  rfl

theorem triggerExpansions_ne_nil (q : List Char) (h : hasTriggerWord q = true) :
    triggerExpansions q ≠ [] := by
  simp only [hasTriggerWord, List.any_eq_true] at h
  obtain ⟨kv, hmem, hp⟩ := h
  intro hnil
  unfold triggerExpansions at hnil
  rw [List.flatMap_eq_nil_iff] at hnil
  have hkv := hnil kv (List.mem_filter.mpr ⟨hmem, hp⟩)
  simp only [SYNONYMS, List.mem_cons, List.not_mem_nil, or_false] at hmem
  rcases hmem with h1 | h1 | h1 <;> subst h1 <;> simp at hkv

/-- Claim C3 (confirmed): when the store is non-empty and the first
nearest-neighbor attempt resolves zero titles, the tool performs
exactly one retry on the expanded query and returns its (possibly
empty) matches as a valid terminal result — the trace records exactly
two search rounds, with no further fallback; with a trigger word the
expanded text appends the " OR "-joined synonyms of every trigger word
found, and with no trigger word the expanded query equals the original. -/
theorem semantic_tool_single_expansion_retry
    (titles : List (List Char)) (search : List Char → List Int) (q : List Char)
    (hne : titles ≠ []) (hfirst : matchTitles titles (search q) = []) :
    adaptive_semantic_search_tool titles search q
      = (matchTitles titles (search (expand_semantic_query q)),
         [SemEvent.searched q, SemEvent.searched (expand_semantic_query q)])
    ∧ (hasTriggerWord q = true →
        expand_semantic_query q
          = q ++ " (".data
              ++ List.intercalate " OR ".data (triggerExpansions q) ++ ")".data)
    ∧ (hasTriggerWord q = false → expand_semantic_query q = q) := by
  refine ⟨?_, fun h => ?_, fun h => ?_⟩
  · have he : titles.isEmpty = false := by
      rw [List.isEmpty_eq_false]
      exact hne
    simp [adaptive_semantic_search_tool, he, hfirst]
  · have hx := triggerExpansions_ne_nil q h
    have hxe : (triggerExpansions q).isEmpty = false := by
      rw [List.isEmpty_eq_false]
      exact hx
    simp [expand_semantic_query, hxe]
  · have hx := triggerExpansions_eq_nil q h
    simp [expand_semantic_query, hx]

/-- Witness for C3: one title, a search oracle returning only the FAISS
out-of-range sentinel, and the query "death". -/
theorem semantic_tool_single_expansion_retry_witness :
    adaptive_semantic_search_tool ["Inception".data]
        (fun _ => [-1, -1, -1, -1, -1]) "death".data
      = ([], [SemEvent.searched "death".data,
              SemEvent.searched "death (dying OR murder OR dead OR kill OR fatal)".data]) := by
  have h := semantic_tool_single_expansion_retry ["Inception".data]
    (fun _ => [-1, -1, -1, -1, -1]) "death".data (by decide) (by decide)
  rw [h.1]
  rfl

theorem matchTitles_length_le (titles : List (List Char)) (idxs : List Int) :
    (matchTitles titles idxs).length ≤ idxs.length :=
  List.length_filterMap_le _ _

theorem matchTitles_subset (titles : List (List Char)) (idxs : List Int) :
    ∀ t ∈ matchTitles titles idxs, t ∈ titles := by
  intro t ht
  rw [matchTitles, List.mem_filterMap] at ht
  obtain ⟨i, -, hi⟩ := ht
  by_cases h1 : 1 ≤ i
  · rw [if_pos h1] at hi
    exact List.get?_mem hi
  · rw [if_neg h1] at hi
    cases hi

/-- Claim C6 (confirmed): with a search oracle returning 5 indices per
round (FAISS at k = 5, padding with an out-of-range sentinel), the tool
returns at most 5 titles, each drawn from the distinct-title list, and
any index outside the 1-based mapping domain — the -1 sentinel
included — is silently dropped by `matchTitles` rather than failing. -/
theorem semantic_tool_at_most_five_titles
    (titles : List (List Char)) (search : List Char → List Int) (q : List Char)
    (h5 : ∀ s, (search s).length = 5) :
    (adaptive_semantic_search_tool titles search q).1.length ≤ 5
    ∧ (∀ t ∈ (adaptive_semantic_search_tool titles search q).1, t ∈ titles)
    ∧ (∀ idxs (i : Int), i < 1 ∨ (titles.length : Int) < i →
        matchTitles titles (i :: idxs) = matchTitles titles idxs) := by
  have hfst : (adaptive_semantic_search_tool titles search q).1 = []
      ∨ ∃ s, (adaptive_semantic_search_tool titles search q).1
          = matchTitles titles (search s) := by
    unfold adaptive_semantic_search_tool
    by_cases he : titles.isEmpty
    · simp [he]
    · simp only [he, Bool.false_eq_true, if_false]
      by_cases hm : (matchTitles titles (search q)).isEmpty
      · simp only [hm, if_true]
        exact Or.inr ⟨expand_semantic_query q, rfl⟩
      · simp only [hm, Bool.false_eq_true, if_false]
        exact Or.inr ⟨q, rfl⟩
  refine ⟨?_, ?_, ?_⟩
  · rcases hfst with h | ⟨s, hs⟩
    · simp [h]
    · rw [hs]
      calc (matchTitles titles (search s)).length
          ≤ (search s).length := matchTitles_length_le _ _
        _ = 5 := h5 s
  · rcases hfst with h | ⟨s, hs⟩
    · simp [h]
    · rw [hs]
      exact matchTitles_subset _ _
  · intro idxs i hi
    rcases hi with hlt | hgt
    · have h1 : ¬ (1 ≤ i) := not_le.mpr hlt
      simp [matchTitles, List.filterMap_cons, h1]
    · have h1 : 1 ≤ i := by omega
      have hn : titles.get? (i.toNat - 1) = none := by
        rw [List.get?_eq_none]
        omega
      rw [List.get?_eq_getElem?] at hn
      simp [matchTitles, List.filterMap_cons, h1, hn]

/-- Witness for C6: two titles, a search round returning indices 1, 2
and three sentinels. -/
theorem semantic_tool_at_most_five_titles_witness :
    (adaptive_semantic_search_tool ["Inception".data, "The Matrix".data]
        (fun _ => [1, 2, -1, -1, -1]) "robot movie".data).1.length ≤ 5 :=
  (semantic_tool_at_most_five_titles ["Inception".data, "The Matrix".data]
    (fun _ => [1, 2, -1, -1, -1]) "robot movie".data (fun _ => rfl)).1

/-- Claim C5 (confirmed): the rebuilt vector list holds exactly one
vector per source row, in row order, and position i holds the embedding
of row i with a missing overview filled by the single-space string. -/
theorem faiss_index_row_aligned {α : Type} (embed : List Char → α)
    (overviews : List (Option (List Char))) :
    (buildFaissVectors embed overviews).length = overviews.length
    ∧ ∀ i : Nat, (buildFaissVectors embed overviews).get? i
        = (overviews.get? i).map (fun o => embed (o.getD " ".data)) := by
  constructor
  · simp [buildFaissVectors]
  · intro i
    unfold buildFaissVectors
    rw [List.get?_map, List.get?_map, Option.map_map]
    rfl

/-- Witness for C5: embedding by length over a two-row store whose
second overview is missing. -/
theorem faiss_index_row_aligned_witness :
    (buildFaissVectors List.length [some "Two brothers".data, none]).get? 1
      = some 1 := by
  have h := (faiss_index_row_aligned List.length
    [some "Two brothers".data, none]).2 1
  rw [h]
  rfl

/-- Claim C10 (confirmed): with zero titles in the store, the tool
returns the empty result at once, with an empty search trace — no
embedding, vector search or expansion round happens. -/
theorem semantic_tool_empty_store (search : List Char → List Int) (q : List Char) :
    adaptive_semantic_search_tool [] search q = ([], []) := rfl

/-- Witness for C10 at a concrete oracle and query. -/
theorem semantic_tool_empty_store_witness :
    adaptive_semantic_search_tool [] (fun _ => [1, 2, 3, 4, 5]) "Inception".data
      = ([], []) :=
  semantic_tool_empty_store (fun _ => [1, 2, 3, 4, 5]) "Inception".data

/-- Claim C9 (as stated, refuted): with exactly one recorded step the
panel text is "Nothing to Display." — with a trailing period — which
differs from the literal "Nothing to Display" the claim names. -/
theorem cot_placeholder_counterexample :
    cotDisplay ["Step 1: AI Thought".data] = "Nothing to Display.".data
    ∧ cotDisplay ["Step 1: AI Thought".data] ≠ "Nothing to Display".data := by
  exact ⟨rfl, by decide⟩

/-- Claim C9 (amended): with more than one recorded step the panel is
the newline-joined concatenation of the step traces; with exactly one
step it is the literal placeholder "Nothing to Display." (trailing
period included). -/
theorem cot_display_contract (response_tracker : List (List Char)) :
    (1 < response_tracker.length →
      cotDisplay response_tracker
        = List.intercalate "\n".data response_tracker)
    ∧ (response_tracker.length = 1 →
      cotDisplay response_tracker = "Nothing to Display.".data) := by
  constructor
  · intro h
    simp [cotDisplay, h]
  · intro h
    simp [cotDisplay, h]

/-- Witness for C9 (amended) at a single-step turn. -/
theorem cot_display_contract_witness :
    cotDisplay ["only step".data] = "Nothing to Display.".data :=
  (cot_display_contract ["only step".data]).2 rfl
